import Mathlib

/-!
Verification of the market-data aggregation pipeline.

A shallow embedding of the repository's cleaning pipeline (`src/data_cleaner.py`),
storage layer (`src/database.py`) and indicator module (`src/indicators.py`),
with theorems settling the specification's claims about them.

Modelling conventions:

* Calendar dates carry no time component anywhere in the pipeline
  (`data_cleaner.py:105` strips it); we model a date as a natural number in
  `yyyymmdd` form, whose usual order is the calendar order.
* A pandas cell, as seen by `pd.to_numeric(errors="coerce")`, is either a value
  that parses as a number (`RawCell.num q`, covering ints, floats and numeric
  strings), a missing value (`RawCell.missing`, covering NaN/None), or text
  that fails to parse (`RawCell.text`).  Numeric values are modelled as `ℚ`.
* A DataFrame is a list of rows plus its list of column names and the state
  of its row index: whether the index is a DatetimeIndex, the index's name,
  and whether a `date` column / the index parses as dates — everything the
  date-normalization branches of `data_cleaner.py:32-52` inspect.  Each row
  carries the date that the applicable branch would assign to it.
* The function can exit three ways, all modelled: return a table, return
  `None`, or raise an uncaught exception — `pd.to_datetime` on an unparsable
  `date` column raises at `data_cleaner.py:37`, and
  `reset_index(inplace=True)` at line 99 raises
  `ValueError: cannot insert date, already exists` whenever the column it
  inserts (the index's name) already exists, which happens on every
  `date`-column input (`set_index("date", drop=False)` at line 38 names the
  index `date`) and on every input whose index is already named `date`, such
  as the fetch adapter's output (`fetchers.py:45`).
-/

/-- Calendar date (no time-of-day component), encoded `yyyymmdd` so that the
numeric order is the calendar order. -/
abbrev Date := Nat

/-- A Python exception escaping a modelled function: `nameError` models
`NameError` (an undefined name), `valueError` models `ValueError` and its
pandas subclasses such as the date-parse errors of `pd.to_datetime`. -/
inductive PyError where
  | nameError (name : String)
  | valueError (msg : String)
deriving DecidableEq

deriving instance DecidableEq for Except

/-- A raw tabular cell as classified by `pd.to_numeric(..., errors="coerce")`
(`data_cleaner.py:56-57`): `num q` is any cell whose content parses as the
number `q`; `missing` is NaN/None; `text s` is content that fails to parse. -/
inductive RawCell where
  | num (q : ℚ)
  | missing
  | text (s : String)
deriving DecidableEq

/-- The numeric reading of a cell: `pd.to_numeric` yields a number exactly for
`num` cells and NaN (here `none`) otherwise. -/
def RawCell.toNumeric : RawCell → Option ℚ
  | .num q => some q
  | .missing => none
  | .text _ => none

/-- One row of the raw input frame: the date the date-normalization step
assigns to it, and the five OHLCV cells. -/
structure RawRow where
  date : Date
  open_ : RawCell
  high : RawCell
  low : RawCell
  close : RawCell
  volume : RawCell
deriving DecidableEq

/-- The raw input DataFrame of `clean_ohlcv_data`: its column names, the
state of its row index, and its rows.

* `indexIsDatetime`: `isinstance(df.index, pd.DatetimeIndex)`
  (`data_cleaner.py:34`);
* `indexName`: `df.index.name` (`none` for an unnamed index);
* `dateColParsable`: whether `pd.to_datetime(df["date"])` succeeds
  (`data_cleaner.py:37`), relevant only when a `date` column exists;
* `indexCoercible`: whether `pd.to_datetime(df.index)` succeeds
  (`data_cleaner.py:41`), relevant only in the fallback branch.

Each row carries the calendar date the applicable normalization branch would
assign to it (on the datetime-index branch the index values, which line 35
writes over any pre-existing `date` column). -/
structure RawFrame where
  cols : List String
  indexIsDatetime : Bool
  indexName : Option String
  dateColParsable : Bool
  indexCoercible : Bool
  rows : List RawRow
deriving DecidableEq

/-- One row of the working frame `df_cleaned`: like a raw row, plus the
`ticker` column which exists only once `data_cleaner.py:108` assigns it. -/
structure WorkRow where
  date : Date
  open_ : RawCell
  high : RawCell
  low : RawCell
  close : RawCell
  volume : RawCell
  ticker : Option String
deriving DecidableEq

/-- The working frame `df_cleaned` built at `data_cleaner.py:24`: the copy
carries the same columns and index state as the caller's frame, and working
rows. -/
structure WorkFrame where
  cols : List String
  indexIsDatetime : Bool
  indexName : Option String
  dateColParsable : Bool
  indexCoercible : Bool
  rows : List WorkRow
deriving DecidableEq

/-- One row of the cleaner's returned frame (`data_cleaner.py:111-112`), which
is also the row shape of the database table `ohlcv_data` (`database.py:21-32`):
the numeric columns are nullable. -/
structure FinalRow where
  ticker : String
  date : Date
  open_ : Option ℚ
  high : Option ℚ
  low : Option ℚ
  close : Option ℚ
  volume : Option ℚ
deriving DecidableEq

/-- The five required OHLCV column names (`data_cleaner.py:26`). -/
def requiredOhlcvCols : List String := ["open", "high", "low", "close", "volume"]

/-- Schema check of `data_cleaner.py:27`: all five OHLCV columns present. -/
def schemaOk (f : RawFrame) : Bool := requiredOhlcvCols.all f.cols.contains

/-- Row part of `df.copy()` at `data_cleaner.py:24`: the working row starts as
the raw row, with no `ticker` column yet. -/
def copyRow (r : RawRow) : WorkRow :=
  ⟨r.date, r.open_, r.high, r.low, r.close, r.volume, none⟩

/-- Model of `df.copy()` at `data_cleaner.py:24`: a value copy of the caller's frame. -/
def copyFrame (f : RawFrame) : WorkFrame :=
  ⟨f.cols, f.indexIsDatetime, f.indexName, f.dateColParsable, f.indexCoercible,
    f.rows.map copyRow⟩

/-- Model of `pd.to_numeric(col, errors="coerce")` on one cell: a parsable cell becomes
its number, anything else becomes NaN (`data_cleaner.py:56-57`). -/
def toNumericCell (c : RawCell) : RawCell :=
  match c.toNumeric with
  | some q => .num q
  | none => .missing

/-- Lines 56-57 of `data_cleaner.py` applied to one row: numeric coercion of
all five OHLCV columns. -/
def toNumericRow (r : WorkRow) : WorkRow :=
  { r with
    open_ := toNumericCell r.open_
    high := toNumericCell r.high
    low := toNumericCell r.low
    close := toNumericCell r.close
    volume := toNumericCell r.volume }

/-- The `dropna(subset=[open, high, low, close, volume])` predicate of
`data_cleaner.py:62`: the row is kept iff none of the five cells is NaN. -/
def rowComplete (r : WorkRow) : Bool :=
  r.open_.toNumeric.isSome && r.high.toNumeric.isSome && r.low.toNumeric.isSome &&
    r.close.toNumeric.isSome && r.volume.toNumeric.isSome

/-- Element-wise `<` between two cells with pandas NaN semantics: a comparison
involving NaN is false. -/
def cellLt (a b : RawCell) : Bool :=
  match a.toNumeric, b.toNumeric with
  | some x, some y => decide (x < y)
  | _, _ => false

/-- Element-wise `>` between two cells with pandas NaN semantics. -/
def cellGt (a b : RawCell) : Bool :=
  match a.toNumeric, b.toNumeric with
  | some x, some y => decide (y < x)
  | _, _ => false

/-- Element-wise `== 0` on a cell with pandas NaN semantics
(`data_cleaner.py:85`). -/
def cellEqZero (c : RawCell) : Bool :=
  match c.toNumeric with
  | some x => decide (x = 0)
  | none => false

/-- Element-wise `< 0` on a cell with pandas NaN semantics
(`data_cleaner.py:90`). -/
def cellNeg (c : RawCell) : Bool :=
  match c.toNumeric with
  | some x => decide (x < 0)
  | none => false

/-- The advisory counts gathered by `data_cleaner.py:71-92`: rows with
`high < low`, rows with close outside `[low, high]`, rows with open outside
`[low, high]`, rows with zero volume, and whether any OHLCV value is
negative. -/
structure AnomalyReport where
  highLtLow : Nat
  closeOutside : Nat
  openOutside : Nat
  zeroVolume : Nat
  negAny : Bool
deriving DecidableEq

/-- Lines 71-92 of `data_cleaner.py`: the anomaly checks build temporary
filtered frames (`invalid_hl`, `invalid_c`, `invalid_o`, `zero_vol`) and a
negativity test purely for reporting; the frame the pipeline continues with is
returned unchanged as the second component. -/
def anomalyStage (rows : List WorkRow) : AnomalyReport × List WorkRow :=
  (⟨(rows.filter fun r => cellLt r.high r.low).length,
    (rows.filter fun r => cellGt r.close r.high || cellLt r.close r.low).length,
    (rows.filter fun r => cellGt r.open_ r.high || cellLt r.open_ r.low).length,
    (rows.filter fun r => cellEqZero r.volume).length,
    rows.any fun r =>
      cellNeg r.open_ || cellNeg r.high || cellNeg r.low || cellNeg r.close ||
        cellNeg r.volume⟩,
   rows)

/-- A row is flagged by some advisory anomaly check of `data_cleaner.py:71-92`. -/
def anomalousRow (r : WorkRow) : Bool :=
  cellLt r.high r.low ||
    (cellGt r.close r.high || cellLt r.close r.low) ||
    (cellGt r.open_ r.high || cellLt r.open_ r.low) ||
    cellEqZero r.volume ||
    (cellNeg r.open_ || cellNeg r.high || cellNeg r.low || cellNeg r.close ||
      cellNeg r.volume)

/-- Model of the assignment of the ticker column (`data_cleaner.py:108`). -/
def setTicker (t : String) (r : WorkRow) : WorkRow := { r with ticker := some t }

/-- The final column selection `df_cleaned[[ticker, date, open, high, low,
close, volume]]` (`data_cleaner.py:111-112`): reads each row's columns; the
`ticker` column was assigned at line 108 (an unset ticker column reads as the
empty string, which no execution path reaches). -/
def selectFinal (r : WorkRow) : FinalRow :=
  ⟨r.ticker.getD (""), r.date, r.open_.toNumeric, r.high.toNumeric, r.low.toNumeric,
    r.close.toNumeric, r.volume.toNumeric⟩

/-- The mutable state of `clean_ohlcv_data`: the caller's argument `df` and the
working copy `df_cleaned`.  Every pandas statement of `data_cleaner.py:24-112`
targets `df_cleaned`; none assigns into `df`. -/
structure PipeState where
  df : RawFrame
  df_cleaned : WorkFrame

/-- Apply a transformation to the frame `df_cleaned` names (the only frame the
function body mutates). -/
def onRows (g : List WorkRow → List WorkRow) (s : PipeState) : PipeState :=
  { s with df_cleaned := { s.df_cleaned with rows := g s.df_cleaned.rows } }

/-- Outcome of the date-normalization block (`data_cleaner.py:32-52`): a date
key is established (recording the name the row index bears afterwards), or
the block returns `None` (index-coercion failure, caught at lines 44-46), or
it raises an uncaught pandas parse error — `pd.to_datetime(df["date"])` at
line 37 has no try/except around it. -/
inductive DateSetup where
  | established (indexName : Option String)
  | failed
  | raisedParse
deriving DecidableEq

/-- The date-normalization branches of `data_cleaner.py:32-52` on the working
copy:

* line 34: a datetime index is copied into a `date` column (line 35); the
  index and its name are unchanged;
* line 36: otherwise a present `date` column is parsed (line 37, raising on
  unparsable content, uncaught) and `set_index("date", drop=False)` at
  line 38 makes that column the index, so the index is afterwards named
  `date` while the `date` column is kept;
* line 39: otherwise the index itself is coerced (line 41), the caught
  failure becoming a `None` return (lines 44-46); success keeps the index
  name.

The `isinstance` re-check at lines 49-52 cannot fail after any successful
branch, so it adds no outcome. -/
def dateSetupOf (w : WorkFrame) : DateSetup :=
  if w.indexIsDatetime then .established w.indexName
  else if w.cols.contains ("date") then
    (if w.dateColParsable then .established (some ("date")) else .raisedParse)
  else if w.indexCoercible then .established w.indexName
  else .failed

/-- The same branch logic read off the caller's frame (the copy at
`data_cleaner.py:24` preserves every inspected field, so
`dateSetupOf (copyFrame f) = rawDateSetup f` definitionally). -/
def rawDateSetup (f : RawFrame) : DateSetup :=
  if f.indexIsDatetime then .established f.indexName
  else if f.cols.contains ("date") then
    (if f.dateColParsable then .established (some ("date")) else .raisedParse)
  else if f.indexCoercible then .established f.indexName
  else .failed

/-- The column name `df_cleaned.reset_index(inplace=True)` at
`data_cleaner.py:99` tries to insert: a named index contributes its name; for
an unnamed index pandas picks the default `index`, falling back to `level_0`
when a column named `index` already exists. -/
def resetInsertedCol (indexName : Option String) (cols : List String) : String :=
  match indexName with
  | some n => n
  | none => if cols.contains ("index") then "level_0" else "index"

/-- Whether `reset_index(inplace=True)` at `data_cleaner.py:99` raises:
pandas raises `ValueError: cannot insert <name>, already exists` when the
column it inserts is already present.  At line 99 the frame's columns are the
input columns plus the `date` column every successful normalization branch
created, so a named index collides exactly when it is named `date` (always
the case on the `date`-column branch, via `set_index` at line 38, and for
inputs whose index was already named `date`, e.g. the fetch adapter's output,
`fetchers.py:45`) or bears the name of another existing column; an unnamed
index collides only when both fallback names `index` and `level_0` are
taken. -/
def resetIndexRaises (indexName : Option String) (cols : List String) : Bool :=
  match indexName with
  | some n => n == "date" || cols.contains n
  | none => cols.contains ("index") && cols.contains ("level_0")

/-- Stand-in message for the pandas parse error raised at
`data_cleaner.py:37` (a `DateParseError`, subclass of `ValueError`). -/
def dateParseErrorMsg : String := "could not parse date column"

/-- Model of `clean_ohlcv_data(df, ticker)` of `src/data_cleaner.py`, with the caller's
frame threaded explicitly: the first component is the call's outcome — a
returned table (`.ok (some rows)`), a returned `None` (`.ok none`), or an
uncaught exception (`.error e`) — and the second is the caller's frame `df`
as it stands at exit.

* line 19: `df is None or df.empty` returns `None`;
* line 24: `df_cleaned = df.copy()`;
* lines 26-30: schema check on the copy, failure returns `None`;
* lines 32-52: date normalization (`dateSetupOf`): a `date` column that does
  not parse raises out of the function at line 37; an uncoercible index
  returns `None`; otherwise the date key is established and the index name
  after the block is recorded;
* lines 56-57: numeric coercion of the five OHLCV columns;
* lines 59-65: `dropna` on the five OHLCV columns, in place on the copy;
* lines 67-69: if the frame became empty, return `None`;
* lines 71-92: advisory anomaly checks (report only, frame passed through);
* lines 98-99: `reset_index(inplace=True)` — raises
  `ValueError: cannot insert <index name>, already exists` out of the
  function whenever the column it inserts already exists
  (`resetIndexRaises`); in particular on every `date`-column input;
* lines 101-105: the `date` column is present on every surviving path, and
  the per-row dates are already calendar dates in this model;
* line 108: ticker tagging;
* lines 111-112: final column selection (which also discards the spurious
  column `reset_index` inserted when the index had another name),
  returned. -/
def clean_ohlcv_data_run (df : Option RawFrame) (ticker : String) :
    Except PyError (Option (List FinalRow)) × Option RawFrame :=
  match df with
  | none => (.ok none, none)
  | some f =>
    if f.rows.isEmpty then (.ok none, some f)
    else
      let s0 : PipeState := ⟨f, copyFrame f⟩
      if ¬ (requiredOhlcvCols.all s0.df_cleaned.cols.contains) then (.ok none, some s0.df)
      else
        match dateSetupOf s0.df_cleaned with
        | .raisedParse => (.error (.valueError (dateParseErrorMsg)), some s0.df)
        | .failed => (.ok none, some s0.df)
        | .established idxName =>
          let s1 := onRows (List.map toNumericRow) s0
          let s2 := onRows (List.filter rowComplete) s1
          if s2.df_cleaned.rows.isEmpty then (.ok none, some s2.df)
          else
            let rows3 := (anomalyStage s2.df_cleaned.rows).2
            let s3 := onRows (fun _ => rows3) s2
            if resetIndexRaises idxName s3.df_cleaned.cols then
              (.error (.valueError ("cannot insert " ++
                resetInsertedCol idxName s3.df_cleaned.cols ++ ", already exists")),
               some s3.df)
            else
              let s4 := onRows (List.map (setTicker ticker)) s3
              (.ok (some (s4.df_cleaned.rows.map selectFinal)), some s4.df)

/-- The outcome `clean_ohlcv_data` delivers to its caller: a table, the
`None` failure signal, or an uncaught exception. -/
def clean_ohlcv_data (df : Option RawFrame) (ticker : String) :
    Except PyError (Option (List FinalRow)) :=
  (clean_ohlcv_data_run df ticker).1

/-- The rows of `df_cleaned` right after the completeness filter of
`data_cleaner.py:62` (copy, numeric coercion, dropna). -/
def keptRows (f : RawFrame) : List WorkRow :=
  ((f.rows.map copyRow).map toNumericRow).filter rowComplete

/-- All five OHLCV cells of a raw row parse as numbers (no cell is missing or
unparsable). -/
def rawComplete (r : RawRow) : Bool :=
  r.open_.toNumeric.isSome && r.high.toNumeric.isSome && r.low.toNumeric.isSome &&
    r.close.toNumeric.isSome && r.volume.toNumeric.isSome

/-- The cleaned output row produced from a raw input row. -/
def finalOf (t : String) (r : RawRow) : FinalRow :=
  selectFinal (setTicker t (toNumericRow (copyRow r)))

/-- The cleaned output row produced from a post-filter working row. -/
def finalOfW (t : String) (r : WorkRow) : FinalRow :=
  selectFinal (setTicker t r)

/-- All five nullable numeric fields of a final row are present. -/
def completeFinal (o : FinalRow) : Bool :=
  o.open_.isSome && o.high.isSome && o.low.isSome && o.close.isSome && o.volume.isSome

/-! Storage layer (`src/database.py`).

The table `ohlcv_data` has primary key `(ticker, date)` and nullable
`Numeric` OHLCV columns (`database.py:21-32`); we model its state as the list
of stored rows.  `database.py` imports sqlalchemy, pandas and the config, but
never numpy — yet `insert_ohlcv_data` evaluates `np.nan` at `database.py:81`,
outside the `try` of line 96, so any call that reaches that line raises
`NameError` to its caller before touching the database. -/

/-- Two rows have the same `(ticker, date)` primary key. -/
def sameKey (a b : FinalRow) : Bool := a.ticker == b.ticker && a.date == b.date

/-- The effect of PostgreSQL `INSERT ... ON CONFLICT (ticker, date) DO UPDATE
SET <non-key columns> = excluded.<...>` (`database.py:88-94`) for one values
row: if a stored row has the same key, its OHLCV fields are overwritten with
the new values; otherwise the row is appended. -/
def upsertRow (table : List FinalRow) (r : FinalRow) : List FinalRow :=
  if table.any (sameKey r) then
    table.map fun s =>
      if sameKey r s then
        { s with open_ := r.open_, high := r.high, low := r.low, close := r.close,
                 volume := r.volume }
      else s
  else table ++ [r]

/-- The upsert statement over a whole values batch, row by row. -/
def upsertBatch (table : List FinalRow) (rows : List FinalRow) : List FinalRow :=
  rows.foldl upsertRow table

/-- Model of `insert_ohlcv_data(df)` of `src/database.py` as the code executes: the
resulting table state paired with the exception that escapes, if any.

* lines 63-68: engine present, `df` empty → report and return normally;
* lines 70-74: the cleaner's output always carries the required columns
  (modelled by the `FinalRow` type);
* line 78-79: date shaping (dates are already calendar dates here);
* line 81: `... .replace({pd.NA: None, np.nan: None}) ...` evaluates `np`,
  which is **not defined** — `database.py` never imports numpy — so a
  `NameError` is raised; this is before the `try` of line 96, so the
  exception escapes and the table is left untouched. -/
def insert_ohlcv_data (table : List FinalRow) (df : List FinalRow) :
    List FinalRow × Option PyError :=
  if df.isEmpty then (table, none)
  else (table, some (.nameError ("np")))

/-- Model of `insert_ohlcv_data(df)` as the source reads with the missing
`import numpy as np` supplied (the evident intent of `database.py`): the
NaN→None replacement is the identity here because nullable fields are already
`Option`, and the `ON CONFLICT (ticker, date) DO UPDATE` upsert of lines 88-99
runs in one transaction; `SQLAlchemyError` would be caught at lines 101-104
and reported, never thrown to the caller. -/
def insert_ohlcv_data_fixed (table : List FinalRow) (df : List FinalRow) :
    List FinalRow × Option PyError :=
  if df.isEmpty then (table, none)
  else (upsertBatch table df, none)

/-! Binary floating-point read conversion.

`fetch_ohlcv_data` runs `pd.to_numeric(df[col], errors="coerce")` on each
numeric column (`database.py:137-139`), converting the exact `Decimal` values
delivered for the `Numeric(19,8)` / `Numeric(25,4)` columns into IEEE-754
binary64 floats.  We model the value-level effect of that conversion: round
to the nearest 53-significant-bit dyadic rational, ties to even.  Overflow and
subnormals are ignored because every representable `Numeric(19,8)` or
`Numeric(25,4)` magnitude lies well inside the binary64 normal range. -/

/-- Floor of the base-two logarithm of a positive rational: the unique `z` with `2^z ≤ q < 2^(z+1)`,
computed from the bit lengths of numerator and denominator. -/
def ratFloorLog2 (q : ℚ) : Int :=
  let a : Int := Nat.log2 q.num.toNat
  let b : Int := Nat.log2 q.den
  if q < (2 : ℚ) ^ (a - b) then a - b - 1 else a - b

/-- Round a rational to the nearest integer, ties to even. -/
def roundHalfEven (x : ℚ) : Int :=
  let f := x.floor
  let r := x - (f : ℚ)
  if r < 1 / 2 then f
  else if 1 / 2 < r then f + 1
  else if 2 ∣ f then f else f + 1

/-- Binary64 rounding of a positive rational: scale into `[2^52, 2^53)`, round
the significand to the nearest integer (ties to even), and scale back. -/
def floatRoundPos (a : ℚ) : ℚ :=
  let k : Int := 52 - ratFloorLog2 a
  (roundHalfEven (a * (2 : ℚ) ^ k) : ℚ) * (2 : ℚ) ^ (-k)

/-- Value-level semantics of converting an exact decimal to an IEEE-754
binary64 float (`pd.to_numeric` on a `Decimal` column, `database.py:139`). -/
def floatRound (q : ℚ) : ℚ :=
  if q = 0 then 0
  else if q < 0 then -(floatRoundPos (-q)) else floatRoundPos q

/-- A dyadic rational: an integer divided by a power of two.  Every finite
IEEE-754 binary float is dyadic; a decimal such as `0.1` is not. -/
def isDyadic (x : ℚ) : Prop := ∃ (m : Int) (e : Nat), x * 2 ^ e = (m : ℚ)

/-- The per-row effect of `database.py:137-139` on a fetched row: each nullable
numeric column is passed through `pd.to_numeric`, i.e. its `Decimal` value is
converted to a binary64 float; `ticker` and `date` are untouched. -/
def convertRecord (r : FinalRow) : FinalRow :=
  { r with open_ := r.open_.map floatRound, high := r.high.map floatRound,
           low := r.low.map floatRound, close := r.close.map floatRound,
           volume := r.volume.map floatRound }

/-- Ascending-date order used by `stmt.order_by(ohlcv_table.c.date)`
(`database.py:131`). -/
def dateLe (a b : FinalRow) : Prop := a.date ≤ b.date

instance : DecidableRel dateLe := fun a b => inferInstanceAs (Decidable (a.date ≤ b.date))

instance : IsTotal FinalRow dateLe := ⟨fun a b => Nat.le_total a.date b.date⟩

instance : IsTrans FinalRow dateLe := ⟨fun _ _ _ h1 h2 => Nat.le_trans h1 h2⟩

/-- Model of `fetch_ohlcv_data(ticker, start_date, end_date)` of `src/database.py`:

* line 124: `select().where(ticker == ticker)`;
* lines 126-129: each supplied bound adds an inclusive `where` clause (an
  omitted bound — `None`, which is falsy — adds none);
* line 131: `order_by(date)` ascending;
* lines 133-141: the rows are read and each numeric column is converted with
  `pd.to_numeric` (see `convertRecord`); on no match the result is simply the
  empty table, not an error. -/
def fetch_ohlcv_data (table : List FinalRow) (ticker : String)
    (start_date end_date : Option Date) : List FinalRow :=
  let stmt := table.filter fun r => r.ticker == ticker
  let stmt : List FinalRow :=
    match start_date with
    | some d => stmt.filter fun r => decide (d ≤ r.date)
    | none => stmt
  let stmt : List FinalRow :=
    match end_date with
    | some d => stmt.filter fun r => decide (r.date ≤ d)
    | none => stmt
  (stmt.insertionSort dateLe).map convertRecord

/-- The combined row predicate the three `where` clauses of
`fetch_ohlcv_data` impose. -/
def matchesQuery (ticker : String) (start_date end_date : Option Date)
    (r : FinalRow) : Bool :=
  r.ticker == ticker &&
    (match start_date with | some d => decide (d ≤ r.date) | none => true) &&
    (match end_date with | some d => decide (r.date ≤ d) | none => true)

/-! Indicator module (`src/indicators.py`). -/

/-- Model of `calculate_sma(data_series, window)` of `src/indicators.py`, on the series
of numeric samples:

* line 17: an empty series or a non-positive window is invalid input — the
  function returns an **empty** series;
* lines 20-23: a window longer than the series returns an all-NaN series with
  the input's index (same length, every entry undefined);
* line 26: `rolling(window, min_periods=window).mean()` — entry `i` is NaN
  for `i < window - 1` and the arithmetic mean of samples
  `i - window + 1 .. i` otherwise. -/
def calculate_sma (data_series : List ℚ) (window : Int) : List (Option ℚ) :=
  if data_series.isEmpty ∨ window ≤ 0 then []
  else if (data_series.length : Int) < window then
    List.replicate data_series.length none
  else
    let w := window.toNat
    (List.range data_series.length).map fun i =>
      if i + 1 < w then none
      else some (((data_series.drop (i + 1 - w)).take w).sum / (w : ℚ))

/-! Concrete inputs used by witnesses and counterexamples. -/

/-- The spec's concrete cleaning scenario on a surviving input shape (an
unnamed `DatetimeIndex`, no `date` column): one row (2024-01-01) whose close
is the unparsable text `bad`, one fully numeric row (2024-01-02). -/
def scenarioFrame : RawFrame :=
  ⟨["open", "high", "low", "close", "volume"], true, none, false, false,
   [⟨20240101, .num 100, .num 105, .num 99, .text ("bad"), .num 1000⟩,
    ⟨20240102, .num 101, .num 106, .num 100, .num 104, .num 1200⟩]⟩

/-- The cleaned output of `scenarioFrame`: exactly the 2024-01-02 row. -/
def scenarioOut : List FinalRow :=
  [⟨"TST", 20240102, some 101, some 106, some 100, some 104, some 1200⟩]

/-- A frame (unnamed `DatetimeIndex`, no `date` column) whose single complete
row is anomalous: `high < low`, close and open outside `[low, high]`, zero
volume, and a negative open. -/
def anomalyFrame : RawFrame :=
  ⟨["open", "high", "low", "close", "volume"], true, none, false, false,
   [⟨20240103, .num (-1), .num 90, .num 100, .num 200, .num 0⟩]⟩

/-- The cleaned output of `anomalyFrame`: the anomalous row is kept. -/
def anomalyOut : List FinalRow :=
  [⟨"TST", 20240103, some (-1), some 90, some 100, some 200, some 0⟩]

/-- A frame with two fully numeric rows on the same calendar date, carried on
an unnamed `DatetimeIndex` (so the pipeline reaches its return). -/
def dupDateFrame : RawFrame :=
  ⟨["open", "high", "low", "close", "volume"], true, none, false, false,
   [⟨20240101, .num 100, .num 105, .num 99, .num 104, .num 1000⟩,
    ⟨20240101, .num 101, .num 106, .num 100, .num 103, .num 1100⟩]⟩

/-- A frame whose date key comes from a parsable `date` column (no datetime
index), with one fully numeric row: the input shape of the spec's concrete
cleaning scenario, and the shape on which `reset_index` at
`data_cleaner.py:99` collides with the kept `date` column. -/
def dateColFrame : RawFrame :=
  ⟨["open", "high", "low", "close", "volume", "date"], false, none, true, false,
   [⟨20240102, .num 101, .num 106, .num 100, .num 104, .num 1200⟩]⟩

/-- A `date`-column frame whose single complete row is anomalous
(`high < low`, close and open outside `[low, high]`, zero volume, negative
open). -/
def anomalyDateColFrame : RawFrame :=
  ⟨["open", "high", "low", "close", "volume", "date"], false, none, true, false,
   [⟨20240103, .num (-1), .num 90, .num 100, .num 200, .num 0⟩]⟩

/-- A frame with a `date` column that does not parse as dates. -/
def badDateColFrame : RawFrame :=
  ⟨["open", "high", "low", "close", "volume", "date"], false, none, false, false,
   [⟨20240102, .num 101, .num 106, .num 100, .num 104, .num 1200⟩]⟩

/-- A frame shaped like the fetch adapter's output (`fetchers.py:44-45`): a
`DatetimeIndex` named `date`, no `date` column, fully numeric rows. -/
def fetcherIndexFrame : RawFrame :=
  ⟨["open", "high", "low", "close", "volume"], true, some ("date"), false, false,
   [⟨20240102, .num 101, .num 106, .num 100, .num 104, .num 1200⟩]⟩

/-- The spec's concrete upsert scenario, first write: close `104`. -/
def scenarioRow104 : FinalRow :=
  ⟨"TST", 20240102, some 101, some 106, some 100, some 104, some 1200⟩

/-- The spec's concrete upsert scenario, second write: close changed to `110`. -/
def scenarioRow110 : FinalRow :=
  ⟨"TST", 20240102, some 101, some 106, some 100, some 110, some 1200⟩

/-- A canonical row used to exhibit the `NameError` escaping the storage
layer. -/
def aaplRow : FinalRow :=
  ⟨"AAPL", 20240105, some 180, some 182, some 179, some 181, some 50000000⟩

/-- A stored table whose close field holds the exact decimal `0.1`, a value
`Numeric(19,8)` represents exactly. -/
def tenthTable : List FinalRow :=
  [⟨"TST", 20240102, some 101, some 106, some 100, some (1 / 10), some 1200⟩]

/-- The single stored row used by the fetch witnesses. -/
def fetchWitnessRow : FinalRow :=
  ⟨"MSFT", 20240110, none, none, none, some 401, none⟩

/-- A one-row stored table used by the fetch witnesses. -/
def fetchWitnessTable : List FinalRow := [fetchWitnessRow]

/-- The cleaned output of `dupDateFrame`: both rows survive, sharing a date. -/
def dupDateOut : List FinalRow :=
  [⟨"TST", 20240101, some 100, some 105, some 99, some 104, some 1000⟩,
   ⟨"TST", 20240101, some 101, some 106, some 100, some 103, some 1100⟩]

/-! Helper lemmas about the cleaning pipeline. -/

theorem toNumericCell_toNumeric (c : RawCell) :
    (toNumericCell c).toNumeric = c.toNumeric := by
  cases c <;> rfl

theorem rawComplete_eq (r : RawRow) :
    rowComplete (toNumericRow (copyRow r)) = rawComplete r := by
  simp [rowComplete, toNumericRow, copyRow, rawComplete, toNumericCell_toNumeric]

theorem keptRows_eq (f : RawFrame) :
    keptRows f = (f.rows.filter rawComplete).map fun r => toNumericRow (copyRow r) := by
  unfold keptRows
  rw [List.map_map]
  induction f.rows with
  | nil => rfl
  | cons a l ih =>
    simp only [List.map_cons, List.filter_cons, Function.comp_apply]
    cases h : rawComplete a with
    | true => simp [rawComplete_eq, h, ih]
    | false => simp [rawComplete_eq, h, ih]

theorem clean_fst_eq (f : RawFrame) (t : String) :
    clean_ohlcv_data (some f) t =
      (if f.rows.isEmpty then (Except.ok none, some f)
       else if ¬ schemaOk f then (Except.ok none, some f)
       else
         match rawDateSetup f with
         | .raisedParse => (Except.error (.valueError (dateParseErrorMsg)), some f)
         | .failed => (Except.ok none, some f)
         | .established nm =>
           if (keptRows f).isEmpty then (Except.ok none, some f)
           else if resetIndexRaises nm f.cols then
             (Except.error (.valueError ("cannot insert " ++ resetInsertedCol nm f.cols ++
               ", already exists")), some f)
           else (Except.ok (some (((keptRows f).map (setTicker t)).map selectFinal)),
             some f)).1 := rfl

theorem clean_ok_iff (f : RawFrame) (t : String) (out : List FinalRow) :
    clean_ohlcv_data (some f) t = .ok (some out) ↔
      (¬ f.rows.isEmpty ∧ schemaOk f ∧
        (∃ nm, rawDateSetup f = .established nm ∧ resetIndexRaises nm f.cols = false) ∧
        ¬ (keptRows f).isEmpty ∧ out = (keptRows f).map (finalOfW t)) := by
  rw [clean_fst_eq]
  by_cases h1 : f.rows.isEmpty
  · rw [if_pos h1]
    simp [h1]
  · rw [if_neg h1]
    by_cases h2 : schemaOk f
    · rw [if_neg (not_not_intro h2)]
      cases hds : rawDateSetup f with
      | raisedParse => simp [h1, h2]
      | failed => simp [h1, h2]
      | established nm =>
        simp only []
        by_cases h4 : (keptRows f).isEmpty
        · rw [if_pos h4]
          simp [h1, h2, h4]
        · rw [if_neg h4]
          by_cases h5 : resetIndexRaises nm f.cols
          · rw [if_pos h5]
            simp [h1, h2, h4, h5]
          · rw [if_neg h5]
            simp only [Except.ok.injEq, Option.some.injEq]
            constructor
            · intro he
              have he2 : (keptRows f).map (finalOfW t) = out := by
                rw [← he, List.map_map]
                rfl
              exact ⟨h1, h2, ⟨nm, rfl, by simpa using h5⟩, h4, he2.symm⟩
            · rintro ⟨-, -, -, -, rfl⟩
              rw [List.map_map]
              rfl
    · rw [if_pos h2]
      simp [h1, h2]

/-- C9: cleaning does not mutate its argument.  For every input frame,
`clean_ohlcv_data` works on the copy made at `data_cleaner.py:24`
(`df_cleaned = df.copy()`), and every subsequent statement targets
`df_cleaned`, so on every exit path — early `None` return, success, or an
uncaught exception (the parse raise at line 37 and the `reset_index`
collision at line 99) — the caller's frame `df` stands exactly as it was
passed in. -/
theorem clean_preserves_caller_frame (df : Option RawFrame) (t : String) :
    (clean_ohlcv_data_run df t).2 = df := by
  cases df with
  | none => rfl
  | some f =>
    simp only [clean_ohlcv_data_run]
    repeat' split
    all_goals rfl

/-- C10: cleaning never returns an empty table.  Whenever `clean_ohlcv_data`
returns a table (rather than the `None` failure signal or an uncaught
exception), that table contains at least one row: the emptiness check of
`data_cleaner.py:67-69` fails the pipeline before the post-filter frame could
be returned empty, and no later step removes rows. -/
theorem clean_output_nonempty (df : Option RawFrame) (t : String)
    (out : List FinalRow) (h : clean_ohlcv_data df t = .ok (some out)) : out ≠ [] := by
  cases df with
  | none => simp [clean_ohlcv_data, clean_ohlcv_data_run] at h
  | some f =>
    rw [clean_ok_iff] at h
    obtain ⟨-, -, -, h4, rfl⟩ := h
    simp only [ne_eq, List.map_eq_nil_iff]
    intro hnil
    rw [hnil] at h4
    exact h4 rfl

/-- Closed instance of `clean_output_nonempty` at the concrete scenario
frame. -/
theorem clean_output_nonempty_witness : scenarioOut ≠ [] :=
  clean_output_nonempty (some scenarioFrame) ("TST") scenarioOut (by decide)

/-- Completeness-filter semantics on the paths where `clean_ohlcv_data`
actually returns a table: a row with any missing or unparsable OHLCV cell
never contributes an output row, every fully numeric row does, and every
output row arises from a fully numeric input row.  Claim C2 itself is settled
as a code bug (`clean_complete_rows_lost_to_crash`): on `date`-column inputs
the code raises before any table is returned. -/
theorem clean_completeness_filter (f : RawFrame) (t : String)
    (out : List FinalRow) (h : clean_ohlcv_data (some f) t = .ok (some out)) :
    (∀ r ∈ f.rows, rawComplete r = true → finalOf t r ∈ out) ∧
    (∀ r ∈ f.rows, rawComplete r = false → finalOf t r ∉ out) ∧
    (∀ o ∈ out, ∃ r ∈ f.rows, rawComplete r = true ∧ o = finalOf t r) := by
  rw [clean_ok_iff] at h
  obtain ⟨-, -, -, -, rfl⟩ := h
  rw [keptRows_eq, List.map_map]
  refine ⟨?_, ?_, ?_⟩
  · intro r hr hc
    exact List.mem_map_of_mem _ (List.mem_filter.2 ⟨hr, hc⟩)
  · intro r hr hc hmem
    obtain ⟨r2, hr2, heq⟩ := List.mem_map.1 hmem
    have hc2 : rawComplete r2 = true := (List.mem_filter.1 hr2).2
    have heq2 : finalOf t r2 = finalOf t r := heq
    have key : ∀ s : RawRow, completeFinal (finalOf t s) = rawComplete s := by
      intro s
      cases s
      simp [completeFinal, finalOf, selectFinal, setTicker, toNumericRow, copyRow,
        rawComplete, toNumericCell_toNumeric]
    have hfin : completeFinal (finalOf t r) = true := by
      rw [← heq2, key r2]
      exact hc2
    rw [key r, hc] at hfin
    cases hfin
  · intro o ho
    obtain ⟨r, hr, heq⟩ := List.mem_map.1 ho
    exact ⟨r, (List.mem_filter.1 hr).1, (List.mem_filter.1 hr).2, heq.symm⟩

/-- Closed instance of `clean_completeness_filter` at the spec's concrete
scenario rows on a surviving input shape: the 2024-01-01 row with the
unparsable close is dropped, the fully numeric 2024-01-02 row is kept. -/
theorem clean_completeness_filter_witness :
    (∀ r ∈ scenarioFrame.rows, rawComplete r = true → finalOf ("TST") r ∈ scenarioOut) ∧
    (∀ r ∈ scenarioFrame.rows, rawComplete r = false → finalOf ("TST") r ∉ scenarioOut) ∧
    (∀ o ∈ scenarioOut, ∃ r ∈ scenarioFrame.rows,
      rawComplete r = true ∧ o = finalOf ("TST") r) :=
  clean_completeness_filter scenarioFrame ("TST") scenarioOut (by decide)

/-- C2: the completeness filter is right as intent but the code crashes
before delivering it on `date`-column inputs.  For a frame with the required
columns, a parsable `date` column and one fully numeric row, the date key is
established via `set_index("date", drop=False)` (`data_cleaner.py:38`), and
then `reset_index(inplace=True)` at line 99 raises
`ValueError: cannot insert date, already exists` out of the function —
contradicting the code's own comments at lines 96-104 ("Moves date from
index to column") and the spec's concrete scenario — so the fully numeric
row is present in no cleaned output: none exists. -/
theorem clean_complete_rows_lost_to_crash :
    (∀ r ∈ dateColFrame.rows, rawComplete r = true) ∧
    clean_ohlcv_data (some dateColFrame) ("TST") =
      .error (.valueError ("cannot insert date, already exists")) :=
  ⟨by decide, by decide⟩

/-- Anomaly-stage semantics on the paths where `clean_ohlcv_data` actually
returns a table: the advisory checks of `data_cleaner.py:71-92` only count
and report — the row list they pass on equals the row list they received,
every post-filter row (anomalous or not) contributes an output row, and the
output has exactly as many rows as survived the completeness filter.  Claim
C7 itself is settled as a code bug (`clean_anomalies_reported_then_crash`):
on `date`-column inputs the code raises after the warnings print, before any
table is returned. -/
theorem clean_anomalies_nonmutating (f : RawFrame) (t : String)
    (out : List FinalRow) (h : clean_ohlcv_data (some f) t = .ok (some out)) :
    (anomalyStage (keptRows f)).2 = keptRows f ∧
    out.length = (keptRows f).length ∧
    (∀ r ∈ keptRows f, anomalousRow r = true → finalOfW t r ∈ out) := by
  rw [clean_ok_iff] at h
  obtain ⟨-, -, -, -, rfl⟩ := h
  refine ⟨rfl, by simp, ?_⟩
  intro r hr _
  exact List.mem_map_of_mem _ hr

/-- Closed instance of `clean_anomalies_nonmutating` at a surviving frame
whose single row violates every anomaly check at once, and is kept anyway. -/
theorem clean_anomalies_nonmutating_witness :
    (anomalyStage (keptRows anomalyFrame)).2 = keptRows anomalyFrame ∧
    anomalyOut.length = (keptRows anomalyFrame).length ∧
    (∀ r ∈ keptRows anomalyFrame, anomalousRow r = true →
      finalOfW ("TST") r ∈ anomalyOut) :=
  clean_anomalies_nonmutating anomalyFrame ("TST") anomalyOut (by decide)

/-- C7: anomaly detection is advisory by intent, but on `date`-column inputs
the rows it flags remain in no cleaned output because the function crashes.
For a frame whose single complete row trips every anomaly check, the checks
run and report (`high < low` counted once, the row flagged anomalous), and
then `reset_index(inplace=True)` at `data_cleaner.py:99` raises
`ValueError: cannot insert date, already exists` out of the function, so no
cleaned output exists for the anomalous row to remain in. -/
theorem clean_anomalies_reported_then_crash :
    (anomalyStage (keptRows anomalyDateColFrame)).1.highLtLow = 1 ∧
    (∀ r ∈ keptRows anomalyDateColFrame, anomalousRow r = true) ∧
    clean_ohlcv_data (some anomalyDateColFrame) ("TST") =
      .error (.valueError ("cannot insert date, already exists")) :=
  ⟨by decide, by decide, by decide⟩

/-- The main ingest path crashes too: the fetch adapter names its index
`date` (`fetchers.py:45`), so `reset_index` at `data_cleaner.py:99` collides
for every fetched frame as well. -/
theorem clean_fetcher_index_raises_valueerror :
    clean_ohlcv_data (some fetcherIndexFrame) ("TST") =
      .error (.valueError ("cannot insert date, already exists")) := by
  decide

/-- An unparsable `date` column raises at `data_cleaner.py:37` (uncaught)
instead of producing the `None` failure signal. -/
theorem clean_unparsable_date_column_raises :
    clean_ohlcv_data (some badDateColFrame) ("TST") =
      .error (.valueError (dateParseErrorMsg)) := by
  decide

/-- C8 counterexample: the claim that the cleaned table has at most one row
per calendar date fails on the code.  `clean_ohlcv_data` has no
deduplication step, so a frame with two complete rows dated 2024-01-01
(carried on an unnamed `DatetimeIndex`, a shape that reaches the return)
cleans to a table whose two rows share that date. -/
theorem clean_duplicate_dates_counterexample :
    clean_ohlcv_data (some dupDateFrame) ("TST") = .ok (some dupDateOut) ∧
    dupDateOut.map FinalRow.date = [20240101, 20240101] ∧
    ¬ (dupDateOut.map FinalRow.date).Nodup :=
  ⟨by decide, by decide, by decide⟩

/-- C8 amended: every cleaned output row carries a single calendar-date key,
but the table is not deduplicated on it — whenever a table is returned it has
exactly one row per complete input row, in input order, so several output
rows may share a calendar date. -/
theorem clean_no_dedup_characterization (f : RawFrame) (t : String)
    (out : List FinalRow) (h : clean_ohlcv_data (some f) t = .ok (some out)) :
    out = (f.rows.filter rawComplete).map (finalOf t) := by
  rw [clean_ok_iff] at h
  obtain ⟨-, -, -, -, rfl⟩ := h
  rw [keptRows_eq, List.map_map]
  rfl

/-- Closed instance of `clean_no_dedup_characterization` at the
duplicate-date frame. -/
theorem clean_no_dedup_characterization_witness :
    dupDateOut = (dupDateFrame.rows.filter rawComplete).map (finalOf ("TST")) :=
  clean_no_dedup_characterization dupDateFrame ("TST") dupDateOut (by decide)

/-! Helper lemmas about the storage layer. -/

theorem convertRecord_date (r : FinalRow) : (convertRecord r).date = r.date := rfl

theorem convertRecord_ticker (r : FinalRow) : (convertRecord r).ticker = r.ticker := rfl

theorem matchesQuery_iff (t : String) (sd ed : Option Date) (r : FinalRow) :
    matchesQuery t sd ed r = true ↔
      (r.ticker = t ∧ (∀ d ∈ sd, d ≤ r.date) ∧ (∀ d ∈ ed, r.date ≤ d)) := by
  cases sd <;> cases ed <;> simp [matchesQuery, and_assoc]

theorem fetch_eq_filter (table : List FinalRow) (t : String) (sd ed : Option Date) :
    fetch_ohlcv_data table t sd ed =
      ((table.filter (matchesQuery t sd ed)).insertionSort dateLe).map convertRecord := by
  cases sd <;> cases ed <;>
    · simp only [fetch_ohlcv_data, List.filter_filter]
      congr 1
      congr 1
      apply List.filter_congr
      intro a _
      cases hb : (a.ticker == t) <;> simp [matchesQuery, hb, Bool.and_comm]

theorem fetch_mem_iff (table : List FinalRow) (t : String) (sd ed : Option Date)
    (x : FinalRow) :
    x ∈ fetch_ohlcv_data table t sd ed ↔
      ∃ r, r ∈ table ∧ matchesQuery t sd ed r = true ∧ x = convertRecord r := by
  rw [fetch_eq_filter]
  constructor
  · intro hx
    obtain ⟨r, hr, heq⟩ := List.mem_map.1 hx
    rw [List.mem_insertionSort] at hr
    exact ⟨r, (List.mem_filter.1 hr).1, (List.mem_filter.1 hr).2, heq.symm⟩
  · rintro ⟨r, hr, hm, rfl⟩
    exact List.mem_map_of_mem _ (by rw [List.mem_insertionSort]; exact List.mem_filter.2 ⟨hr, hm⟩)

theorem fetch_sorted (table : List FinalRow) (t : String) (sd ed : Option Date) :
    List.Sorted dateLe (fetch_ohlcv_data table t sd ed) := by
  rw [fetch_eq_filter]
  refine List.Pairwise.map _ ?_
    (List.sorted_insertionSort dateLe (table.filter (matchesQuery t sd ed)))
  intro a b hab
  exact hab

/-- C3: range query bounds.  For every stored table, ticker and optional
bounds, `fetch_ohlcv_data` returns rows corresponding exactly to the stored
records of that ticker whose date lies in the closed interval — an omitted
bound constrains nothing — sorted ascending by date, and returns the empty
table (not an error) when nothing matches.  Each returned row is the stored
record with its `ticker` and `date` intact and its numeric fields passed
through the read conversion of `database.py:137-139` (see `convertRecord`). -/
theorem fetch_range_query_spec (table : List FinalRow) (t : String)
    (sd ed : Option Date) :
    (∀ x, x ∈ fetch_ohlcv_data table t sd ed ↔
      ∃ r, r ∈ table ∧ r.ticker = t ∧ (∀ d ∈ sd, d ≤ r.date) ∧
        (∀ d ∈ ed, r.date ≤ d) ∧ x = convertRecord r) ∧
    List.Sorted dateLe (fetch_ohlcv_data table t sd ed) ∧
    ((∀ r ∈ table,
        ¬(r.ticker = t ∧ (∀ d ∈ sd, d ≤ r.date) ∧ (∀ d ∈ ed, r.date ≤ d))) →
      fetch_ohlcv_data table t sd ed = []) := by
  have hmem : ∀ x, x ∈ fetch_ohlcv_data table t sd ed ↔
      ∃ r, r ∈ table ∧ r.ticker = t ∧ (∀ d ∈ sd, d ≤ r.date) ∧
        (∀ d ∈ ed, r.date ≤ d) ∧ x = convertRecord r := by
    intro x
    rw [fetch_mem_iff]
    constructor
    · rintro ⟨r, hr, hm, rfl⟩
      obtain ⟨h1, h2, h3⟩ := (matchesQuery_iff t sd ed r).1 hm
      exact ⟨r, hr, h1, h2, h3, rfl⟩
    · rintro ⟨r, hr, h1, h2, h3, rfl⟩
      exact ⟨r, hr, (matchesQuery_iff t sd ed r).2 ⟨h1, h2, h3⟩, rfl⟩
  refine ⟨hmem, fetch_sorted table t sd ed, ?_⟩
  intro hnone
  rw [List.eq_nil_iff_forall_not_mem]
  intro x hx
  obtain ⟨r, hr, h1, h2, h3, -⟩ := (hmem x).1 hx
  exact hnone r hr ⟨h1, h2, h3⟩

/-- Closed instance of `fetch_range_query_spec`: querying a ticker with no
stored rows returns the empty table. -/
theorem fetch_range_query_spec_witness :
    fetch_ohlcv_data fetchWitnessTable ("ZZZ") none none = [] :=
  (fetch_range_query_spec fetchWitnessTable ("ZZZ") none none).2.2 (by decide)

/-- C1: the upsert scenario is broken by a missing import.  Upserting the
canonical record `(TST, 2024-01-02, close=104)` and then upserting the same
key with close changed to `110` should leave exactly one stored row with
close `110`; instead both calls to `insert_ohlcv_data` raise
`NameError: name np is not defined` at `database.py:81` (the module never
imports numpy) before the transaction begins, so nothing is ever stored and
the update is discarded by a crash rather than applied. -/
theorem insert_scenario_raises_nameerror :
    insert_ohlcv_data [] [scenarioRow104] = ([], some (.nameError ("np"))) ∧
    insert_ohlcv_data (insert_ohlcv_data [] [scenarioRow104]).1 [scenarioRow110] =
      ([], some (.nameError ("np"))) :=
  ⟨rfl, rfl⟩

/-- C6: a storage-layer failure escapes.  Inserting a single canonical row
makes `insert_ohlcv_data` evaluate `np.nan` at `database.py:81` — outside the
`try` of line 96 and with numpy never imported — so a `NameError` propagates
out of the storage layer instead of being caught and reported. -/
theorem insert_single_row_raises_nameerror :
    (insert_ohlcv_data [] [aaplRow]).2 = some (.nameError ("np")) := rfl

/-! Intent of the upsert statement (`database.py:88-94`), as it behaves once
the missing `import numpy as np` is supplied: these theorems document that
the `ON CONFLICT (ticker, date) DO UPDATE` write is idempotent and
last-write-wins, which is what claim C1 describes. -/

theorem sameKey_of_upsert_update (r s : FinalRow) (h : sameKey r s = true) :
    sameKey r { s with open_ := r.open_, high := r.high, low := r.low,
                       close := r.close, volume := r.volume } = true := h

theorem upsertRow_idem (table : List FinalRow) (r : FinalRow) :
    upsertRow (upsertRow table r) r = upsertRow table r := by
  by_cases h : table.any (sameKey r)
  · have e1 : upsertRow table r = table.map fun s =>
        if sameKey r s then
          { s with open_ := r.open_, high := r.high, low := r.low,
                   close := r.close, volume := r.volume }
        else s := by
      rw [upsertRow, if_pos h]
    have h2 : (upsertRow table r).any (sameKey r) = true := by
      rw [e1]
      obtain ⟨s, hs, hks⟩ := List.any_eq_true.1 h
      refine List.any_eq_true.2 ⟨_, List.mem_map_of_mem _ hs, ?_⟩
      rw [if_pos hks]
      exact sameKey_of_upsert_update r s hks
    rw [upsertRow, if_pos h2, e1, List.map_map]
    apply List.map_congr_left
    intro s _
    by_cases hs : sameKey r s
    · simp only [Function.comp_apply, if_pos hs,
        if_pos (sameKey_of_upsert_update r s hs)]
    · simp only [Function.comp_apply, if_neg hs]
  · have e1 : upsertRow table r = table ++ [r] := by
      rw [upsertRow, if_neg h]
    have h2 : (upsertRow table r).any (sameKey r) = true := by
      rw [e1]
      refine List.any_eq_true.2 ⟨r, by simp, ?_⟩
      simp [sameKey]
    have h3 : ∀ s ∈ table, sameKey r s = false := by
      intro s hs
      by_contra hc
      exact h (List.any_eq_true.2 ⟨s, hs, by simpa using hc⟩)
    rw [upsertRow, if_pos h2, e1, List.map_append]
    have htbl : (table.map fun s =>
        if sameKey r s then
          { s with open_ := r.open_, high := r.high, low := r.low,
                   close := r.close, volume := r.volume }
        else s) = table := by
      have : (table.map fun s =>
          if sameKey r s then
            { s with open_ := r.open_, high := r.high, low := r.low,
                     close := r.close, volume := r.volume }
          else s) = table.map id := by
        apply List.map_congr_left
        intro s hs
        rw [if_neg (by simp [h3 s hs])]
        rfl
      rw [this, List.map_id]
    rw [htbl]
    have hr : (if sameKey r r then
        { r with open_ := r.open_, high := r.high, low := r.low,
                 close := r.close, volume := r.volume }
      else r) = r := by
      rw [if_pos (by simp [sameKey])]
    simp only [List.map_cons, List.map_nil, hr]

theorem insert_fixed_single_idempotent (table : List FinalRow) (r : FinalRow) :
    insert_ohlcv_data_fixed (insert_ohlcv_data_fixed table [r]).1 [r] =
      ((insert_ohlcv_data_fixed table [r]).1, none) := by
  simp only [insert_ohlcv_data_fixed, List.isEmpty_cons, if_false, Bool.false_eq_true,
    upsertBatch, List.foldl_cons, List.foldl_nil]
  rw [upsertRow_idem]

theorem insert_fixed_overwrite_scenario :
    (insert_ohlcv_data_fixed
        (insert_ohlcv_data_fixed [] [scenarioRow104]).1 [scenarioRow110]).1 =
      [scenarioRow110] := by
  decide

/-- Model-level statement of `calculate_sma`'s rolling mean, entry `i`:
the arithmetic mean of the `w` trailing samples ending at index `i`. -/
def trailingMean (s : List ℚ) (w : Nat) (i : Nat) : ℚ :=
  ((s.drop (i + 1 - w)).take w).sum / (w : ℚ)

/-- C4: moving-average correctness.  For a series of `N` samples and an
integer window `w` with `0 < w ≤ N`, `calculate_sma` returns a series of
length `N` whose first `w - 1` entries are undefined and whose entry `i`
(for `i ≥ w - 1`) is the arithmetic mean of samples `i - w + 1 .. i`; and
when `w ≤ 0` or `w > N`, every entry of the returned series is undefined
(for `w ≤ 0` the code returns the empty series, for `w > N` an all-NaN
series of length `N`). -/
theorem calculate_sma_spec (s : List ℚ) (w : Int) :
    ((0 < w ∧ w ≤ (s.length : Int)) →
      (calculate_sma s w).length = s.length ∧
      (∀ i : Nat, i + 1 < w.toNat → (calculate_sma s w)[i]? = some none) ∧
      (∀ i : Nat, w.toNat ≤ i + 1 → i < s.length →
        (calculate_sma s w)[i]? = some (some (trailingMean s w.toNat i)))) ∧
    ((w ≤ 0 ∨ (s.length : Int) < w) → ∀ o ∈ calculate_sma s w, o = none) := by
  constructor
  · rintro ⟨hw0, hwN⟩
    have hne : s.isEmpty = false := by
      cases s with
      | nil => simp at hwN; omega
      | cons a l => rfl
    have hcond : ¬(s.isEmpty = true ∨ w ≤ 0) := by
      rw [hne]
      push_neg
      exact ⟨by simp, hw0⟩
    have hlen : ¬((s.length : Int) < w) := not_lt.2 hwN
    have hgoal : calculate_sma s w =
        (List.range s.length).map fun i =>
          if i + 1 < w.toNat then none
          else some (((s.drop (i + 1 - w.toNat)).take w.toNat).sum / (w.toNat : ℚ)) := by
      rw [calculate_sma, if_neg hcond, if_neg hlen]
    refine ⟨by simp [hgoal], ?_, ?_⟩
    · intro i hi
      have hiN : i < s.length := by omega
      rw [hgoal, List.getElem?_map, List.getElem?_range hiN]
      simp [hi]
      omega
    · intro i hi hiN
      rw [hgoal, List.getElem?_map, List.getElem?_range hiN]
      have hlt : ¬(i + 1 < w.toNat) := by omega
      simp [hlt, trailingMean]
      omega
  · intro hdeg o ho
    rcases hdeg with hw | hN
    · have : s.isEmpty = true ∨ w ≤ 0 := Or.inr hw
      rw [calculate_sma, if_pos this] at ho
      cases ho
    · by_cases hemp : s.isEmpty = true ∨ w ≤ 0
      · rw [calculate_sma, if_pos hemp] at ho
        cases ho
      · rw [calculate_sma, if_neg hemp, if_pos hN] at ho
        exact List.eq_of_mem_replicate ho

/-- Closed instance of `calculate_sma_spec`: on a three-sample series with
window `2`, the output has length three. -/
theorem calculate_sma_spec_witness :
    (calculate_sma [(1 : ℚ), 2, 3] 2).length = 3 :=
  ((calculate_sma_spec [(1 : ℚ), 2, 3] 2).1 (by decide)).1

/-! Dyadic rationals and the float conversion. -/

theorem isDyadic_neg (x : ℚ) (h : isDyadic x) : isDyadic (-x) := by
  obtain ⟨m, e, hm⟩ := h
  exact ⟨-m, e, by push_cast; linarith⟩

theorem floatRoundPos_isDyadic (a : ℚ) : isDyadic (floatRoundPos a) := by
  unfold floatRoundPos
  set k : Int := 52 - ratFloorLog2 a with hk
  set m : Int := roundHalfEven (a * (2 : ℚ) ^ k) with hm
  by_cases hk0 : 0 ≤ k
  · refine ⟨m, k.toNat, ?_⟩
    have h2 : ((2 : ℚ) ^ (-k)) * (2 : ℚ) ^ (k.toNat : Nat) = 1 := by
      rw [← zpow_natCast (2 : ℚ) k.toNat, Int.toNat_of_nonneg hk0,
        ← zpow_add₀ (by norm_num : (2 : ℚ) ≠ 0)]
      simp
    calc (m : ℚ) * 2 ^ (-k) * 2 ^ (k.toNat : Nat)
        = (m : ℚ) * ((2 : ℚ) ^ (-k) * (2 : ℚ) ^ (k.toNat : Nat)) := by ring
      _ = (m : ℚ) := by rw [h2, mul_one]
  · push_neg at hk0
    refine ⟨m * 2 ^ (-k).toNat, 0, ?_⟩
    rw [pow_zero, mul_one]
    push_cast
    rw [← zpow_natCast (2 : ℚ) (-k).toNat, Int.toNat_of_nonneg (by omega)]

theorem floatRound_isDyadic (q : ℚ) : isDyadic (floatRound q) := by
  unfold floatRound
  split_ifs with h0 hneg
  · exact ⟨0, 0, by simp⟩
  · exact isDyadic_neg _ (floatRoundPos_isDyadic (-q))
  · exact floatRoundPos_isDyadic q

theorem tenth_not_isDyadic : ¬ isDyadic ((1 : ℚ) / 10) := by
  rintro ⟨m, e, h⟩
  have h2 : (2 : ℚ) ^ e = 10 * (m : ℚ) := by
    field_simp at h
    linarith
  have h3 : (2 : ℤ) ^ e = 10 * m := by exact_mod_cast h2
  have h5 : (5 : ℤ) ∣ 2 ^ e := ⟨2 * m, by linarith⟩
  have hp : Prime (5 : ℤ) := by norm_num
  have hd : (5 : ℤ) ∣ 2 := hp.dvd_of_dvd_pow h5
  norm_num at hd

/-- C5 counterexample: decimal-precise reads fail on the code.  The table
stores the exact decimal `0.1` as a close price (a value `Numeric(19,8)`
holds exactly), but `fetch_ohlcv_data` runs the stored decimals through
`pd.to_numeric` (`database.py:139`), returning the binary64 float nearest to
`0.1` — a dyadic rational, which `1/10` is not — so the returned close is not
equal to the stored decimal. -/
theorem fetch_not_decimal_exact_counterexample :
    (fetch_ohlcv_data tenthTable ("TST") none none).map FinalRow.close ≠
      [some ((1 : ℚ) / 10)] := by
  have hfetch : (fetch_ohlcv_data tenthTable ("TST") none none).map FinalRow.close =
      [some (floatRound ((1 : ℚ) / 10))] := rfl
  rw [hfetch]
  intro hc
  have h1 : floatRound ((1 : ℚ) / 10) = (1 : ℚ) / 10 := by
    simpa using hc
  exact tenth_not_isDyadic (h1 ▸ floatRound_isDyadic ((1 : ℚ) / 10))

theorem isDyadic_of_mem_map_floatRound (o : Option ℚ) (q : ℚ)
    (hq : q ∈ o.map floatRound) : isDyadic q := by
  cases o with
  | none => simp at hq
  | some v =>
    simp only [Option.map_some', Option.mem_def, Option.some.injEq] at hq
    rw [← hq]
    exact floatRound_isDyadic v

/-- C5 amended: every numeric field `fetch_ohlcv_data` returns is the
binary64 float conversion of the corresponding stored decimal — a dyadic
rational — while `ticker` and `date` are returned exactly; a stored decimal
is returned unchanged only when it is itself representable in binary
floating point. -/
theorem fetch_returns_float_rounded (table : List FinalRow) (t : String)
    (sd ed : Option Date) (x : FinalRow)
    (hx : x ∈ fetch_ohlcv_data table t sd ed) :
    ∃ r, r ∈ table ∧ x.ticker = r.ticker ∧ x.date = r.date ∧
      x.open_ = r.open_.map floatRound ∧ x.high = r.high.map floatRound ∧
      x.low = r.low.map floatRound ∧ x.close = r.close.map floatRound ∧
      x.volume = r.volume.map floatRound ∧
      (∀ q ∈ x.open_, isDyadic q) ∧ (∀ q ∈ x.high, isDyadic q) ∧
      (∀ q ∈ x.low, isDyadic q) ∧ (∀ q ∈ x.close, isDyadic q) ∧
      (∀ q ∈ x.volume, isDyadic q) := by
  obtain ⟨r, hr, hm, rfl⟩ := (fetch_mem_iff table t sd ed x).1 hx
  exact ⟨r, hr, rfl, rfl, rfl, rfl, rfl, rfl, rfl,
    fun q hq => isDyadic_of_mem_map_floatRound _ q hq,
    fun q hq => isDyadic_of_mem_map_floatRound _ q hq,
    fun q hq => isDyadic_of_mem_map_floatRound _ q hq,
    fun q hq => isDyadic_of_mem_map_floatRound _ q hq,
    fun q hq => isDyadic_of_mem_map_floatRound _ q hq⟩

/-- Closed instance of `fetch_returns_float_rounded` at the one-row witness
table. -/
theorem fetch_returns_float_rounded_witness :
    ∃ r, r ∈ fetchWitnessTable ∧
      (convertRecord fetchWitnessRow).ticker = r.ticker ∧
      (convertRecord fetchWitnessRow).date = r.date ∧
      (convertRecord fetchWitnessRow).open_ = r.open_.map floatRound ∧
      (convertRecord fetchWitnessRow).high = r.high.map floatRound ∧
      (convertRecord fetchWitnessRow).low = r.low.map floatRound ∧
      (convertRecord fetchWitnessRow).close = r.close.map floatRound ∧
      (convertRecord fetchWitnessRow).volume = r.volume.map floatRound ∧
      (∀ q ∈ (convertRecord fetchWitnessRow).open_, isDyadic q) ∧
      (∀ q ∈ (convertRecord fetchWitnessRow).high, isDyadic q) ∧
      (∀ q ∈ (convertRecord fetchWitnessRow).low, isDyadic q) ∧
      (∀ q ∈ (convertRecord fetchWitnessRow).close, isDyadic q) ∧
      (∀ q ∈ (convertRecord fetchWitnessRow).volume, isDyadic q) :=
  fetch_returns_float_rounded fetchWitnessTable ("MSFT") none none
    (convertRecord fetchWitnessRow) (by exact List.mem_singleton.mpr rfl)
